import Mathlib

/-!
Shallow embedding of the multi-agent workflow orchestrator
(`src/workflow.py`, class `WorkflowOrchestrator`) of the DATAECONOMY.AI
repository, together with theorems settling the specification claims.

Modelling conventions:
* Python strings are Lean `String`s; substring tests (`"X" in s`) are
  `pyIn`, `str.strip()` is `pyStrip`.
* The eight agents of the pipeline form the closed inductive type `Agent`;
  the selector dispatches on `Agent.name`, exactly as the Python code
  dispatches on `last_speaker.name`.
* A Python exception is a `PyExc` (exception type name and message).
  Fallible code returns `Except PyExc`.
* The optional progress callback is an `Option Callback`; the orchestrator
  invokes it with no surrounding try/except, so a callback exception makes
  the selector return `Except.error`, mirroring propagation in Python.
* The mutable field `self.review_iteration_count` is threaded explicitly:
  the selector takes the current counter and returns the updated counter
  next to its `Except` result (the Python field update happens before any
  callback exception can be raised, which the pair faithfully preserves).
-/

namespace DevTeam

/-- One group-chat message dict: the `name` of the speaking agent and its
`content` string (`msg.get("name")`, `msg["content"]`). -/
structure Message where
  name : String
  content : String
deriving DecidableEq, Repr

/-- The closed set of agents of the pipeline (the keys of `self.agents`). -/
inductive Agent where
  | admin_proxy
  | product_manager
  | python_engineer
  | code_reviewer
  | tech_writer
  | qa_engineer
  | devops_engineer
  | ux_designer
deriving DecidableEq, Repr

/-- The `.name` attribute of each agent, as used by the selector's dispatch. -/
def Agent.name : Agent → String
  | .admin_proxy => "Admin_Proxy"
  | .product_manager => "Product_Manager"
  | .python_engineer => "Python_Engineer"
  | .code_reviewer => "Code_Reviewer"
  | .tech_writer => "Tech_Writer"
  | .qa_engineer => "QA_Engineer"
  | .devops_engineer => "DevOps_Engineer"
  | .ux_designer => "UX_Designer"

/-- A Python exception: its type name and its `str(e)` message. -/
structure PyExc where
  ty : String
  msg : String
deriving DecidableEq, Repr

/-- The progress callback `progress_callback(stage, action)` or
`progress_callback(stage, action, iteration)`; it may raise. -/
def Callback : Type := String → String → Option Nat → Except PyExc Unit

/-- Constructor configuration of `WorkflowOrchestrator`:
`max_review_iterations` and the optional `progress_callback`. -/
structure Config where
  max_review_iterations : Nat
  progress_callback : Option Callback

/-- `if self.progress_callback: self.progress_callback(stage, action, it)` —
no-op when the callback is absent, otherwise runs the callback. -/
def notify (cfg : Config) (stage action : String) (it : Option Nat) :
    Except PyExc Unit :=
  match cfg.progress_callback with
  | none => Except.ok ()
  | some f => f stage action it

/-- Sequencing in the selector: after a (possibly raising) callback
invocation, return `v`; a callback exception propagates, as there is no
try/except around the callback calls in `custom_speaker_selector`. -/
def thenReturn (r : Except PyExc Unit) (v : Option Agent) :
    Except PyExc (Option Agent) :=
  match r with
  | Except.ok _ => Except.ok v
  | Except.error e => Except.error e

/-- Python's whitespace class for `str.strip` and `re` `\s` (ASCII part). -/
def isPySpace (c : Char) : Bool :=
  c == ' ' || c == '\t' || c == '\n' || c == '\r' || c == '\x0b' || c == '\x0c'

/-- Membership of `needle` as a contiguous substring, on character lists. -/
def hasSub (needle : List Char) : List Char → Bool
  | [] => needle.isEmpty
  | c :: rest => needle.isPrefixOf (c :: rest) || hasSub needle rest

/-- Python's `needle in hay` on strings. -/
def pyIn (needle hay : String) : Bool :=
  hasSub needle.toList hay.toList

/-- `str.strip()` on character lists. -/
def pyStripList (s : List Char) : List Char :=
  ((s.dropWhile isPySpace).reverse.dropWhile isPySpace).reverse

/-- Python `str.strip()`: drop leading and trailing whitespace. -/
def pyStrip (s : String) : String :=
  String.mk (pyStripList s.toList)

/-- `messages[-1]["content"] if messages else ""`. -/
def lastMessageOf : List Message → String
  | [] => ""
  | [m] => m.content
  | _ :: m :: rest => lastMessageOf (m :: rest)

/-- `WorkflowOrchestrator.custom_speaker_selector` (src/workflow.py lines
39–196). Input: the configuration, the current value of
`self.review_iteration_count`, the last speaker and the group-chat message
list. Output: the updated `self.review_iteration_count`, and either the
next speaker (`some a`), the end of the conversation (`none`), or a
propagated callback exception. -/
def custom_speaker_selector (cfg : Config) (review_iteration_count : Nat)
    (last_speaker : Agent) (messages : List Message) :
    Nat × Except PyExc (Option Agent) :=
  let last_message := lastMessageOf messages
  let last_speaker_name := last_speaker.name
  let ux_designer_has_spoken :=
    messages.any fun msg => msg.name == "UX_Designer"
  if last_speaker_name == "Admin_Proxy" && !ux_designer_has_spoken then
    (review_iteration_count,
      thenReturn (notify cfg "product_manager" "analyzing" none)
        (some Agent.product_manager))
  else if last_speaker_name == "Admin_Proxy" && ux_designer_has_spoken then
    (review_iteration_count, Except.ok none)
  else if last_speaker_name == "Product_Manager" then
    (0,
      thenReturn (notify cfg "python_engineer" "coding" none)
        (some Agent.python_engineer))
  else if last_speaker_name == "Python_Engineer" then
    (review_iteration_count,
      thenReturn (notify cfg "code_reviewer" "reviewing" none)
        (some Agent.code_reviewer))
  else if last_speaker_name == "Code_Reviewer" then
    if pyIn "FIX_REQUIRED" last_message then
      let count := review_iteration_count + 1
      if cfg.max_review_iterations ≤ count then
        (count, Except.ok (some Agent.tech_writer))
      else
        (count,
          thenReturn (notify cfg "python_engineer" "fixing" (some count))
            (some Agent.python_engineer))
    else if pyIn "APPROVED" last_message then
      (review_iteration_count,
        thenReturn (notify cfg "tech_writer" "documenting" none)
          (some Agent.tech_writer))
    else
      (review_iteration_count, Except.ok (some Agent.tech_writer))
  else if last_speaker_name == "Tech_Writer" then
    (review_iteration_count,
      thenReturn (notify cfg "qa_engineer" "testing" none)
        (some Agent.qa_engineer))
  else if last_speaker_name == "QA_Engineer" then
    (review_iteration_count,
      thenReturn (notify cfg "devops_engineer" "deploying" none)
        (some Agent.devops_engineer))
  else if last_speaker_name == "DevOps_Engineer" then
    (review_iteration_count,
      thenReturn (notify cfg "ux_designer" "designing" none)
        (some Agent.ux_designer))
  else if last_speaker_name == "UX_Designer" then
    (review_iteration_count,
      thenReturn (notify cfg "complete" "done" none) none)
  else
    (review_iteration_count, Except.ok none)

/-! ## Artifact extraction (src/workflow.py lines 290–324)

The Python code runs
`re.findall(r'===BEGIN_FILE:([^\s]+)===\s*\n(.*?)\n===END_FILE===', content, re.DOTALL)`
on each message content.  The functions below implement the exact
backtracking semantics of this one pattern on character lists:
scan left to right; at each position try to match the begin marker, then
the greedy name group, then `\s*\n` (greedy, backtracking over the
newlines of the whitespace run), then the lazy body up to the first
occurrence of the end marker; on success resume after the match,
otherwise advance one character. -/

def beginMarker : List Char := "===BEGIN_FILE:".toList

def endMarker : List Char := "\n===END_FILE===".toList

/-- First occurrence split: `some (before, after)` such that
`hay = before ++ needle ++ after` at the leftmost occurrence. -/
def splitAtSub (needle : List Char) : List Char → Option (List Char × List Char)
  | [] => if needle.isEmpty then some ([], []) else none
  | c :: rest =>
    if needle.isPrefixOf (c :: rest) then
      some ([], (c :: rest).drop needle.length)
    else
      match splitAtSub needle rest with
      | some (pre, post) => some (c :: pre, post)
      | none => none

/-- Strip a literal prefix, or fail. -/
def dropLit (lit s : List Char) : Option (List Char) :=
  if lit.isPrefixOf s then some (s.drop lit.length) else none

/-- The group `([^\s]+)===` followed by the obligation that `\s*\n` can
start: since `=` is not whitespace, the greedy group forces the maximal
non-whitespace run `r` to factor as `name ++ "==="` with `name` nonempty
(any shorter split leaves a non-whitespace character where `\s*\n` needs
a whitespace run, so backtracking cannot succeed either).  Returns the
name and the remainder after the run. -/
def parseName (t : List Char) : Option (List Char × List Char) :=
  let r := t.takeWhile fun c => !isPySpace c
  let rest := t.dropWhile fun c => !isPySpace c
  if 4 ≤ r.length && r.drop (r.length - 3) == "===".toList then
    some (r.take (r.length - 3), rest)
  else none

/-- Backtracking positions for `\s*\n` over the whitespace run `w`
followed by remainder `v`: one candidate suffix per newline of `w`,
latest newline first (the greedy choice), each the text right after that
newline. -/
def newlineCuts (w v : List Char) : List (List Char) :=
  match w with
  | [] => []
  | c :: rest =>
    let tails := newlineCuts rest v
    if c == '\n' then tails ++ [rest ++ v] else tails

/-- Lazy body group: at the first candidate position whose suffix
contains the end marker, the body is everything before its first
occurrence; returns the body and the text after the end marker. -/
def tryBodyFrom : List (List Char) → Option (List Char × List Char)
  | [] => none
  | cand :: rest =>
    match splitAtSub endMarker cand with
    | some (body, after) => some (body, after)
    | none => tryBodyFrom rest

/-- Try to match the whole file pattern at the head of `s`; on success
return `((name, body), rest-after-the-match)`. -/
def matchAt (s : List Char) : Option ((List Char × List Char) × List Char) :=
  match dropLit beginMarker s with
  | none => none
  | some t =>
    match parseName t with
    | none => none
    | some (nm, u) =>
      let w := u.takeWhile isPySpace
      let v := u.dropWhile isPySpace
      match tryBodyFrom (newlineCuts w v) with
      | none => none
      | some (body, rest) => some ((nm, body), rest)

/-- Left-to-right, non-overlapping scan of `re.findall`; the fuel is an
upper bound on the number of scan steps (each step consumes at least one
character, so the input length suffices). -/
def findAllAux : Nat → List Char → List (List Char × List Char)
  | 0, _ => []
  | _ + 1, [] => []
  | fuel + 1, c :: rest =>
    match matchAt (c :: rest) with
    | some (pair, after) => pair :: findAllAux fuel after
    | none => findAllAux fuel rest

/-- `re.findall(file_pattern, content, re.DOTALL)`: the list of
`(filename, file_content)` group pairs, in order of occurrence. -/
def findall_file_pattern (content : String) : List (String × String) :=
  (findAllAux content.toList.length content.toList).map
    fun p => (String.mk p.1, String.mk p.2)

/-! ## Filesystem model

`initiate_workflow` touches the filesystem through
`os.makedirs(workspace_path, exist_ok=True)` and
`open(os.path.join(workspace_path, filename), "w")`.  The model records
the set of existing directories and a map from file path to content; an
`open(..., "w")` succeeds exactly when the parent directory of the path
exists (the OS behaviour), and the code creates no directory other than
the workspace root. -/

structure FS where
  dirs : List String
  files : List (String × String)
deriving DecidableEq, Repr

/-- Whether a string starts with the path separator. -/
def headIsSlash (s : String) : Bool :=
  match s.toList with
  | [] => false
  | c :: _ => c == '/'

/-- Whether a string ends with the path separator. -/
def lastIsSlash (s : String) : Bool :=
  match s.toList.getLast? with
  | some c => c == '/'
  | none => false

/-- `os.path.join` for an absolute base and a relative or absolute name
(POSIX semantics). -/
def osPathJoin (base name : String) : String :=
  if headIsSlash name then name
  else if lastIsSlash base || base == "" then base ++ name
  else base ++ "/" ++ name

/-- `os.path.dirname` (POSIX): the part before the last slash, with
trailing slashes stripped unless the head is all slashes. -/
def dirname (p : String) : String :=
  let rev := p.toList.reverse
  let headRev := rev.dropWhile fun c => !(c == '/')
  let head := headRev.reverse
  if head.isEmpty || head.all (fun c => c == '/') then String.mk head
  else String.mk ((head.reverse.dropWhile fun c => c == '/').reverse)

/-- The chain of a path and its ancestors (fuel-bounded; `dirname`
shortens any path other than `""` and `"/"`). -/
def withParents : Nat → String → List String
  | 0, _ => []
  | fuel + 1, p =>
    if p == "" || p == "/" then []
    else p :: withParents fuel (dirname p)

/-- `os.makedirs(p, exist_ok=True)`: the directory and all its missing
ancestors exist afterwards. -/
def makedirs (fs : FS) (p : String) : FS :=
  { fs with dirs := withParents (p.toList.length + 1) p ++ fs.dirs }

/-- `open(path, "w")` followed by `f.write(content)`: succeeds iff the
parent directory exists, replacing any previous content of the path;
otherwise the raised `FileNotFoundError` is signalled as `none`. -/
def fsWrite (fs : FS) (path content : String) : Option FS :=
  if fs.dirs.contains (dirname path) then
    some { fs with
      files := (path, content) :: fs.files.filter fun kv => !(kv.1 == path) }
  else none

/-- Content of a file of the model filesystem, if present. -/
def FS.read (fs : FS) (path : String) : Option String :=
  (fs.files.find? fun kv => kv.1 == path).map fun kv => kv.2

/-- The inner `for filename, file_content in matches` loop (lines
306–322): strip the name and the body, join the path, try to write; a
raised exception is caught, logged and skipped, leaving the counter
unchanged. -/
def saveMatches (workspace_path : String) :
    FS × Nat → List (String × String) → FS × Nat
  | acc, [] => acc
  | (fs, files_extracted), (filename, file_content) :: rest =>
    let filename := pyStrip filename
    let file_content := pyStrip file_content
    let filepath := osPathJoin workspace_path filename
    match fsWrite fs filepath file_content with
    | some fs' => saveMatches workspace_path (fs', files_extracted + 1) rest
    | none => saveMatches workspace_path (fs, files_extracted) rest

/-- The outer `for msg in groupchat.messages` extraction loop (lines
297–322), returning the filesystem and `files_extracted`. -/
def extract_files (workspace_path : String) (fs : FS)
    (msgs : List Message) : FS × Nat :=
  msgs.foldl
    (fun acc msg =>
      saveMatches workspace_path acc (findall_file_pattern msg.content))
    (fs, 0)

/-! ## Test execution and the workflow result -/

/-- The aggregate dictionary returned by the test capability, in the
shape `initiate_workflow` reads and builds (lines 343–358). -/
structure TestAgg where
  status : String
  message : Option String := none
  total_tests : Nat
  total_passed : Nat
  total_failed : Nat
  total_errors : Nat
  test_results : List String := []
deriving DecidableEq, Repr

/-- The result dictionary of `initiate_workflow`; keys absent from a
given return statement are `none`. -/
structure WorkflowResult where
  status : String
  error : Option String := none
  review_iterations : Nat
  total_messages : Option Nat := none
  files_extracted : Option Nat := none
  messages : Option (List Message) := none
  test_results : Option TestAgg := none
deriving DecidableEq, Repr

/-- Modelled from the spec: the group-chat driving loop of the external
`autogen` `GroupChatManager` (not part of this repository's sources).
Per §4.1/§5 of the spec the orchestrator synchronously alternates
speaker selection and stage invocation: the selected stage produces a
message (the external generation collaborator, abstracted as `emit`),
which is appended to the transcript under the stage's name; the loop
stops when the selector returns Terminal, when the round cap (fuel,
`max_round=50`) is exhausted, or when a callback exception propagates.
The final counter value and the propagated exception, if any, are
returned with the transcript. -/
def chatLoop (cfg : Config) (emit : Agent → List Message → String) :
    Nat → Agent → List Message → Nat → List Message × Nat × Option PyExc
  | 0, _, msgs, count => (msgs, count, none)
  | fuel + 1, last, msgs, count =>
    match custom_speaker_selector cfg count last msgs with
    | (count', Except.ok (some next)) =>
        chatLoop cfg emit fuel next
          (msgs ++ [⟨next.name, emit next msgs⟩]) count'
    | (count', Except.ok none) => (msgs, count', none)
    | (count', Except.error e) => (msgs, count', some e)

/-- `WorkflowOrchestrator.initiate_workflow` (src/workflow.py lines
245–404): validate the request; run the chat (an exception propagating
out of the chat is mapped to a `status=error` result by the outer
`except` clauses, with `f"{error_type}: {str(e)}"` as the message);
create the workspace directory; extract and save the delimited file
blocks; run the test capability, converting a raised exception into an
error aggregate; assemble the success result. -/
def initiate_workflow (cfg : Config) (emit : Agent → List Message → String)
    (run_tests_in_workspace : String → Except PyExc TestAgg)
    (workspace_path : String) (fs : FS) (user_request : String) :
    WorkflowResult × FS :=
  if user_request == "" || pyStrip user_request == "" then
    ({ status := "error", error := some "User request cannot be empty",
       review_iterations := 0 }, fs)
  else
    match chatLoop cfg emit 50 Agent.admin_proxy
        [⟨"Admin_Proxy", user_request⟩] 0 with
    | (_, count, some e) =>
      ({ status := "error", error := some (e.ty ++ ": " ++ e.msg),
         review_iterations := count }, fs)
    | (msgs, count, none) =>
      let fs1 := makedirs fs workspace_path
      let (fs2, files_extracted) := extract_files workspace_path fs1 msgs
      let test_results :=
        match run_tests_in_workspace workspace_path with
        | Except.ok r => r
        | Except.error e =>
          { status := "error",
            message := some ("Failed to execute tests: " ++ e.msg),
            total_tests := 0, total_passed := 0, total_failed := 0,
            total_errors := 0, test_results := [] }
      ({ status := "success", review_iterations := count,
         total_messages := some msgs.length,
         files_extracted := some files_extracted,
         messages := some msgs,
         test_results := some test_results }, fs2)

/-! ## Helper lemmas about the selector and the chat loop -/

theorem lastMessageOf_concat (l : List Message) (m : Message) :
    lastMessageOf (l ++ [m]) = m.content := by
  induction l with
  | nil => rfl
  | cons a t ih =>
    cases t with
    | nil => rfl
    | cons b u => exact ih

theorem sel_admin_start (cfg : Config) (count : Nat) (msgs : List Message)
    (hux : (msgs.any fun m => m.name == "UX_Designer") = false)
    (hok : notify cfg "product_manager" "analyzing" none = Except.ok ()) :
    custom_speaker_selector cfg count Agent.admin_proxy msgs
      = (count, Except.ok (some Agent.product_manager)) := by
  simp [custom_speaker_selector, Agent.name, hux, hok, thenReturn]

theorem sel_admin_end (cfg : Config) (count : Nat) (msgs : List Message)
    (hux : (msgs.any fun m => m.name == "UX_Designer") = true) :
    custom_speaker_selector cfg count Agent.admin_proxy msgs
      = (count, Except.ok none) := by
  simp [custom_speaker_selector, Agent.name, hux]

theorem sel_pm (cfg : Config) (count : Nat) (msgs : List Message)
    (hok : notify cfg "python_engineer" "coding" none = Except.ok ()) :
    custom_speaker_selector cfg count Agent.product_manager msgs
      = (0, Except.ok (some Agent.python_engineer)) := by
  simp [custom_speaker_selector, Agent.name, hok, thenReturn]

theorem sel_eng (cfg : Config) (count : Nat) (msgs : List Message)
    (hok : notify cfg "code_reviewer" "reviewing" none = Except.ok ()) :
    custom_speaker_selector cfg count Agent.python_engineer msgs
      = (count, Except.ok (some Agent.code_reviewer)) := by
  simp [custom_speaker_selector, Agent.name, hok, thenReturn]

theorem sel_rev_fix (cfg : Config) (count : Nat) (msgs : List Message)
    (hfix : pyIn "FIX_REQUIRED" (lastMessageOf msgs) = true)
    (hlt : count + 1 < cfg.max_review_iterations)
    (hok : notify cfg "python_engineer" "fixing" (some (count + 1)) = Except.ok ()) :
    custom_speaker_selector cfg count Agent.code_reviewer msgs
      = (count + 1, Except.ok (some Agent.python_engineer)) := by
  simp [custom_speaker_selector, Agent.name, hfix, hok, thenReturn,
    Nat.not_le.mpr hlt]

theorem sel_rev_fix_max (cfg : Config) (count : Nat) (msgs : List Message)
    (hfix : pyIn "FIX_REQUIRED" (lastMessageOf msgs) = true)
    (hge : cfg.max_review_iterations ≤ count + 1) :
    custom_speaker_selector cfg count Agent.code_reviewer msgs
      = (count + 1, Except.ok (some Agent.tech_writer)) := by
  simp [custom_speaker_selector, Agent.name, hfix, hge]

theorem sel_rev_approved (cfg : Config) (count : Nat) (msgs : List Message)
    (hnofix : pyIn "FIX_REQUIRED" (lastMessageOf msgs) = false)
    (happ : pyIn "APPROVED" (lastMessageOf msgs) = true)
    (hok : notify cfg "tech_writer" "documenting" none = Except.ok ()) :
    custom_speaker_selector cfg count Agent.code_reviewer msgs
      = (count, Except.ok (some Agent.tech_writer)) := by
  simp [custom_speaker_selector, Agent.name, hnofix, happ, hok, thenReturn]

theorem sel_rev_default (cfg : Config) (count : Nat) (msgs : List Message)
    (hnofix : pyIn "FIX_REQUIRED" (lastMessageOf msgs) = false)
    (hnoapp : pyIn "APPROVED" (lastMessageOf msgs) = false) :
    custom_speaker_selector cfg count Agent.code_reviewer msgs
      = (count, Except.ok (some Agent.tech_writer)) := by
  simp [custom_speaker_selector, Agent.name, hnofix, hnoapp]

theorem sel_tw (cfg : Config) (count : Nat) (msgs : List Message)
    (hok : notify cfg "qa_engineer" "testing" none = Except.ok ()) :
    custom_speaker_selector cfg count Agent.tech_writer msgs
      = (count, Except.ok (some Agent.qa_engineer)) := by
  simp [custom_speaker_selector, Agent.name, hok, thenReturn]

theorem sel_qa (cfg : Config) (count : Nat) (msgs : List Message)
    (hok : notify cfg "devops_engineer" "deploying" none = Except.ok ()) :
    custom_speaker_selector cfg count Agent.qa_engineer msgs
      = (count, Except.ok (some Agent.devops_engineer)) := by
  simp [custom_speaker_selector, Agent.name, hok, thenReturn]

theorem sel_devops (cfg : Config) (count : Nat) (msgs : List Message)
    (hok : notify cfg "ux_designer" "designing" none = Except.ok ()) :
    custom_speaker_selector cfg count Agent.devops_engineer msgs
      = (count, Except.ok (some Agent.ux_designer)) := by
  simp [custom_speaker_selector, Agent.name, hok, thenReturn]

theorem sel_ux (cfg : Config) (count : Nat) (msgs : List Message)
    (hok : notify cfg "complete" "done" none = Except.ok ()) :
    custom_speaker_selector cfg count Agent.ux_designer msgs
      = (count, Except.ok none) := by
  simp [custom_speaker_selector, Agent.name, hok, thenReturn]

/-- A reviewer message appended at the end, containing neither token:
default-approve advances to the Tech_Writer with the counter unchanged. -/
theorem sel_rev_default_concat (cfg : Config) (count : Nat)
    (msgs : List Message) (c : String)
    (hnofix : pyIn "FIX_REQUIRED" c = false)
    (hnoapp : pyIn "APPROVED" c = false) :
    custom_speaker_selector cfg count Agent.code_reviewer
        (msgs ++ [⟨"Code_Reviewer", c⟩])
      = (count, Except.ok (some Agent.tech_writer)) :=
  sel_rev_default cfg count _
    (by rw [lastMessageOf_concat]; exact hnofix)
    (by rw [lastMessageOf_concat]; exact hnoapp)

/-- A reviewer message appended at the end, containing the rework token,
below the ceiling. -/
theorem sel_rev_fix_concat (cfg : Config) (count : Nat)
    (msgs : List Message) (c : String)
    (hfix : pyIn "FIX_REQUIRED" c = true)
    (hlt : count + 1 < cfg.max_review_iterations)
    (hok : notify cfg "python_engineer" "fixing" (some (count + 1)) = Except.ok ()) :
    custom_speaker_selector cfg count Agent.code_reviewer
        (msgs ++ [⟨"Code_Reviewer", c⟩])
      = (count + 1, Except.ok (some Agent.python_engineer)) :=
  sel_rev_fix cfg count _ (by rw [lastMessageOf_concat]; exact hfix) hlt hok

/-- A reviewer message appended at the end, containing the rework token,
at the ceiling. -/
theorem sel_rev_fix_max_concat (cfg : Config) (count : Nat)
    (msgs : List Message) (c : String)
    (hfix : pyIn "FIX_REQUIRED" c = true)
    (hge : cfg.max_review_iterations ≤ count + 1) :
    custom_speaker_selector cfg count Agent.code_reviewer
        (msgs ++ [⟨"Code_Reviewer", c⟩])
      = (count + 1, Except.ok (some Agent.tech_writer)) :=
  sel_rev_fix_max cfg count _ (by rw [lastMessageOf_concat]; exact hfix) hge

/-- When no progress callback is configured, the selector never raises. -/
theorem sel_ok_of_cb_none (cfg : Config)
    (hcb : cfg.progress_callback = none) (count : Nat) (ls : Agent)
    (msgs : List Message) :
    ∃ v, (custom_speaker_selector cfg count ls msgs).2 = Except.ok v := by
  unfold custom_speaker_selector
  simp only [notify, hcb, thenReturn]
  repeat' split
  all_goals exact ⟨_, rfl⟩

/-- One step of the chat loop for a selected next speaker. -/
theorem chatLoop_step (cfg : Config) (emit : Agent → List Message → String)
    (fuel : Nat) (last : Agent) (msgs : List Message) (count count' : Nat)
    (next : Agent)
    (h : custom_speaker_selector cfg count last msgs
      = (count', Except.ok (some next))) :
    chatLoop cfg emit (fuel + 1) last msgs count
      = chatLoop cfg emit fuel next
          (msgs ++ [⟨next.name, emit next msgs⟩]) count' := by
  simp [chatLoop, h]

/-- Termination of the chat loop when the selector returns Terminal. -/
theorem chatLoop_stop (cfg : Config) (emit : Agent → List Message → String)
    (fuel : Nat) (last : Agent) (msgs : List Message) (count count' : Nat)
    (h : custom_speaker_selector cfg count last msgs
      = (count', Except.ok none)) :
    chatLoop cfg emit (fuel + 1) last msgs count = (msgs, count', none) := by
  simp [chatLoop, h]

/-- With no progress callback the chat loop never produces an exception. -/
theorem chatLoop_no_error (cfg : Config)
    (hcb : cfg.progress_callback = none)
    (emit : Agent → List Message → String) :
    ∀ (fuel : Nat) (last : Agent) (msgs : List Message) (count : Nat),
      (chatLoop cfg emit fuel last msgs count).2.2 = none := by
  intro fuel
  induction fuel with
  | zero => intro last msgs count; rfl
  | succ n ih =>
    intro last msgs count
    obtain ⟨v, hv⟩ := sel_ok_of_cb_none cfg hcb count last msgs
    rcases h : custom_speaker_selector cfg count last msgs with ⟨count', r⟩
    rw [h] at hv
    simp only at hv
    subst hv
    cases v with
    | none => simp [chatLoop, h]
    | some next => simp [chatLoop, h, ih]

/-- The review loop under ceiling 5 with no callback: starting right
after a producer (`Python_Engineer`) message with counter `count` and
`j` rework signals left below the ceiling, reviewer outputs that always
contain the rework token drive `j` routes back to the producer followed
by one forced advance to the `Tech_Writer`, with the counter ending at
the ceiling. -/
theorem rev_loop (emit : Agent → List Message → String)
    (hfix : ∀ ms, pyIn "FIX_REQUIRED" (emit Agent.code_reviewer ms) = true) :
    ∀ (j : Nat) (msgs : List Message) (count fuel : Nat),
    count + j + 1 = 5 →
    ∃ msgs' : List Message,
      chatLoop ⟨5, none⟩ emit (2 * j + 2 + fuel) Agent.python_engineer msgs count
        = chatLoop ⟨5, none⟩ emit fuel Agent.tech_writer msgs' 5 ∧
      msgs'.map Message.name
        = msgs.map Message.name
          ++ (List.replicate j ["Code_Reviewer", "Python_Engineer"]).flatten
          ++ ["Code_Reviewer", "Tech_Writer"] := by
  intro j
  induction j with
  | zero =>
    intro msgs count fuel hc
    have hcount : count = 4 := by omega
    subst hcount
    refine ⟨(msgs ++ [⟨"Code_Reviewer", emit Agent.code_reviewer msgs⟩])
      ++ [⟨"Tech_Writer",
            emit Agent.tech_writer
              (msgs ++ [⟨"Code_Reviewer", emit Agent.code_reviewer msgs⟩])⟩],
      ?_, ?_⟩
    · rw [show 2 * 0 + 2 + fuel = (fuel + 1) + 1 from by omega]
      rw [chatLoop_step _ _ _ _ _ _ _ _ (sel_eng ⟨5, none⟩ _ _ rfl)]
      simp only [Agent.name]
      rw [chatLoop_step _ _ _ _ _ _ _ _
        (sel_rev_fix_max_concat ⟨5, none⟩ _ _ _ (hfix _) (by simp))]
      simp only [Agent.name]
    · simp
  | succ j ih =>
    intro msgs count fuel hc
    have h1 : custom_speaker_selector ⟨5, none⟩ count Agent.python_engineer msgs
        = (count, Except.ok (some Agent.code_reviewer)) := sel_eng _ _ _ rfl
    have h2 : custom_speaker_selector ⟨5, none⟩ count Agent.code_reviewer
        (msgs ++ [⟨"Code_Reviewer", emit Agent.code_reviewer msgs⟩])
        = (count + 1, Except.ok (some Agent.python_engineer)) :=
      sel_rev_fix_concat _ _ _ _ (hfix _) (by simp; omega) rfl
    obtain ⟨msgs', hloop, hnames⟩ :=
      ih ((msgs ++ [⟨"Code_Reviewer", emit Agent.code_reviewer msgs⟩])
          ++ [⟨"Python_Engineer",
               emit Agent.python_engineer
                 (msgs ++ [⟨"Code_Reviewer", emit Agent.code_reviewer msgs⟩])⟩])
        (count + 1) fuel (by omega)
    refine ⟨msgs', ?_, ?_⟩
    · rw [show 2 * (j + 1) + 2 + fuel = ((2 * j + 2 + fuel) + 1) + 1 from by omega]
      rw [chatLoop_step _ _ _ _ _ _ _ _ h1]
      simp only [Agent.name]
      rw [chatLoop_step _ _ _ _ _ _ _ _ h2]
      simp only [Agent.name]
      exact hloop
    · rw [hnames]
      simp [List.replicate_succ, List.append_assoc]

/-! ## Hypothesis-free step lemmas for the no-callback configuration -/

theorem sel_admin_start_one (M count : Nat) (c : String) :
    custom_speaker_selector ⟨M, none⟩ count Agent.admin_proxy
        [⟨"Admin_Proxy", c⟩]
      = (count, Except.ok (some Agent.product_manager)) :=
  sel_admin_start _ _ _ rfl rfl

theorem sel_pm_none (M count : Nat) (msgs : List Message) :
    custom_speaker_selector ⟨M, none⟩ count Agent.product_manager msgs
      = (0, Except.ok (some Agent.python_engineer)) :=
  sel_pm _ _ _ rfl

theorem sel_eng_none (M count : Nat) (msgs : List Message) :
    custom_speaker_selector ⟨M, none⟩ count Agent.python_engineer msgs
      = (count, Except.ok (some Agent.code_reviewer)) :=
  sel_eng _ _ _ rfl

theorem sel_tw_none (M count : Nat) (msgs : List Message) :
    custom_speaker_selector ⟨M, none⟩ count Agent.tech_writer msgs
      = (count, Except.ok (some Agent.qa_engineer)) :=
  sel_tw _ _ _ rfl

theorem sel_qa_none (M count : Nat) (msgs : List Message) :
    custom_speaker_selector ⟨M, none⟩ count Agent.qa_engineer msgs
      = (count, Except.ok (some Agent.devops_engineer)) :=
  sel_qa _ _ _ rfl

theorem sel_devops_none (M count : Nat) (msgs : List Message) :
    custom_speaker_selector ⟨M, none⟩ count Agent.devops_engineer msgs
      = (count, Except.ok (some Agent.ux_designer)) :=
  sel_devops _ _ _ rfl

theorem sel_ux_none (M count : Nat) (msgs : List Message) :
    custom_speaker_selector ⟨M, none⟩ count Agent.ux_designer msgs
      = (count, Except.ok none) :=
  sel_ux _ _ _ rfl

/-- A full linear run with no callback in which the reviewer output
contains neither marker token: eight messages, counter left at 0. -/
theorem chat_default (M : Nat) (emit : Agent → List Message → String)
    (hF : ∀ ms, pyIn "FIX_REQUIRED" (emit Agent.code_reviewer ms) = false)
    (hA : ∀ ms, pyIn "APPROVED" (emit Agent.code_reviewer ms) = false)
    (req : String) :
    (chatLoop ⟨M, none⟩ emit 50 Agent.admin_proxy
        [⟨"Admin_Proxy", req⟩] 0).2 = (0, none) ∧
    (chatLoop ⟨M, none⟩ emit 50 Agent.admin_proxy
        [⟨"Admin_Proxy", req⟩] 0).1.map Message.name
      = ["Admin_Proxy", "Product_Manager", "Python_Engineer", "Code_Reviewer",
         "Tech_Writer", "QA_Engineer", "DevOps_Engineer", "UX_Designer"] := by
  rw [chatLoop_step _ _ _ _ _ _ _ _ (sel_admin_start_one M 0 req)]
  simp only [Agent.name]
  rw [chatLoop_step _ _ _ _ _ _ _ _ (sel_pm_none _ _ _)]
  simp only [Agent.name]
  rw [chatLoop_step _ _ _ _ _ _ _ _ (sel_eng_none _ _ _)]
  simp only [Agent.name]
  rw [chatLoop_step _ _ _ _ _ _ _ _
    (sel_rev_default_concat _ _ _ _ (hF _) (hA _))]
  simp only [Agent.name]
  rw [chatLoop_step _ _ _ _ _ _ _ _ (sel_tw_none _ _ _)]
  simp only [Agent.name]
  rw [chatLoop_step _ _ _ _ _ _ _ _ (sel_qa_none _ _ _)]
  simp only [Agent.name]
  rw [chatLoop_step _ _ _ _ _ _ _ _ (sel_devops_none _ _ _)]
  simp only [Agent.name]
  rw [chatLoop_stop _ _ _ _ _ _ _ (sel_ux_none _ _ _)]
  exact ⟨rfl, by simp⟩

/-! ## Claim theorems -/

/-- C1: with ceiling `N = max_review_iterations`, a reviewer message
containing the rework token routes back to the producer
(`Python_Engineer`) whenever the incremented counter is still below the
ceiling and force-advances to the `Tech_Writer` once it reaches it — so
on repeated rework signals the producer is re-entered exactly `N-1`
times before the forced advance on the `N`-th; with the ceiling at 5,
when every reviewer output contains the rework token the run terminates
with `status = "success"`, `review_iterations = 5`, and a 16-message
transcript in which `Code_Reviewer` is followed by `Python_Engineer`
exactly 4 times and by `Tech_Writer` on the 5th review. -/
theorem C1_bounded_review_loop :
    (∀ (cfg : Config) (count : Nat) (msgs : List Message),
      pyIn "FIX_REQUIRED" (lastMessageOf msgs) = true →
      (count + 1 < cfg.max_review_iterations →
        notify cfg "python_engineer" "fixing" (some (count + 1)) = Except.ok () →
        custom_speaker_selector cfg count Agent.code_reviewer msgs
          = (count + 1, Except.ok (some Agent.python_engineer))) ∧
      (cfg.max_review_iterations ≤ count + 1 →
        custom_speaker_selector cfg count Agent.code_reviewer msgs
          = (count + 1, Except.ok (some Agent.tech_writer)))) ∧
    (∀ (emit : Agent → List Message → String),
      (∀ ms, pyIn "FIX_REQUIRED" (emit Agent.code_reviewer ms) = true) →
      ∀ (run_tests : String → Except PyExc TestAgg) (ws req : String) (fsys : FS),
      (req == "" || pyStrip req == "") = false →
      ∃ final : List Message,
        (initiate_workflow ⟨5, none⟩ emit run_tests ws fsys req).1.status
            = "success" ∧
        (initiate_workflow ⟨5, none⟩ emit run_tests ws fsys req).1.review_iterations
            = 5 ∧
        (initiate_workflow ⟨5, none⟩ emit run_tests ws fsys req).1.messages
            = some final ∧
        final.map Message.name
          = ["Admin_Proxy", "Product_Manager", "Python_Engineer", "Code_Reviewer",
             "Python_Engineer", "Code_Reviewer", "Python_Engineer", "Code_Reviewer",
             "Python_Engineer", "Code_Reviewer", "Python_Engineer", "Code_Reviewer",
             "Tech_Writer", "QA_Engineer", "DevOps_Engineer", "UX_Designer"]) := by
  constructor
  · intro cfg count msgs hfix
    exact ⟨fun hlt hok => sel_rev_fix cfg count msgs hfix hlt hok,
           fun hge => sel_rev_fix_max cfg count msgs hfix hge⟩
  · intro emit hfix run_tests ws req fsys hreq
    obtain ⟨msgsF, hloop, hnames⟩ :=
      rev_loop emit hfix 4
        (([⟨"Admin_Proxy", req⟩]
          ++ [⟨"Product_Manager", emit Agent.product_manager [⟨"Admin_Proxy", req⟩]⟩])
          ++ [⟨"Python_Engineer",
                emit Agent.python_engineer
                  ([⟨"Admin_Proxy", req⟩]
                   ++ [⟨"Product_Manager",
                        emit Agent.product_manager [⟨"Admin_Proxy", req⟩]⟩])⟩])
        0 38 (by omega)
    have e1 : chatLoop ⟨5, none⟩ emit 50 Agent.admin_proxy
        [⟨"Admin_Proxy", req⟩] 0
        = chatLoop ⟨5, none⟩ emit 49 Agent.product_manager
            ([⟨"Admin_Proxy", req⟩]
             ++ [⟨"Product_Manager",
                  emit Agent.product_manager [⟨"Admin_Proxy", req⟩]⟩]) 0 :=
      chatLoop_step _ _ _ _ _ _ _ _ (sel_admin_start ⟨5, none⟩ 0 _ rfl rfl)
    have e2 : chatLoop ⟨5, none⟩ emit 49 Agent.product_manager
        ([⟨"Admin_Proxy", req⟩]
         ++ [⟨"Product_Manager",
              emit Agent.product_manager [⟨"Admin_Proxy", req⟩]⟩]) 0
        = chatLoop ⟨5, none⟩ emit 48 Agent.python_engineer
            (([⟨"Admin_Proxy", req⟩]
              ++ [⟨"Product_Manager",
                   emit Agent.product_manager [⟨"Admin_Proxy", req⟩]⟩])
              ++ [⟨"Python_Engineer",
                    emit Agent.python_engineer
                      ([⟨"Admin_Proxy", req⟩]
                       ++ [⟨"Product_Manager",
                            emit Agent.product_manager [⟨"Admin_Proxy", req⟩]⟩])⟩]) 0 :=
      chatLoop_step _ _ _ _ _ _ _ _ (sel_pm ⟨5, none⟩ 0 _ rfl)
    have e3 : chatLoop ⟨5, none⟩ emit 48 Agent.python_engineer
        (([⟨"Admin_Proxy", req⟩]
          ++ [⟨"Product_Manager",
               emit Agent.product_manager [⟨"Admin_Proxy", req⟩]⟩])
          ++ [⟨"Python_Engineer",
                emit Agent.python_engineer
                  ([⟨"Admin_Proxy", req⟩]
                   ++ [⟨"Product_Manager",
                        emit Agent.product_manager [⟨"Admin_Proxy", req⟩]⟩])⟩]) 0
        = chatLoop ⟨5, none⟩ emit 38 Agent.tech_writer msgsF 5 := hloop
    have e4 : chatLoop ⟨5, none⟩ emit 38 Agent.tech_writer msgsF 5
        = chatLoop ⟨5, none⟩ emit 37 Agent.qa_engineer
            (msgsF ++ [⟨"QA_Engineer", emit Agent.qa_engineer msgsF⟩]) 5 :=
      chatLoop_step _ _ _ _ _ _ _ _ (sel_tw ⟨5, none⟩ 5 _ rfl)
    have e5 : chatLoop ⟨5, none⟩ emit 37 Agent.qa_engineer
        (msgsF ++ [⟨"QA_Engineer", emit Agent.qa_engineer msgsF⟩]) 5
        = chatLoop ⟨5, none⟩ emit 36 Agent.devops_engineer
            ((msgsF ++ [⟨"QA_Engineer", emit Agent.qa_engineer msgsF⟩])
             ++ [⟨"DevOps_Engineer",
                  emit Agent.devops_engineer
                    (msgsF ++ [⟨"QA_Engineer", emit Agent.qa_engineer msgsF⟩])⟩]) 5 :=
      chatLoop_step _ _ _ _ _ _ _ _ (sel_qa ⟨5, none⟩ 5 _ rfl)
    have e6 : chatLoop ⟨5, none⟩ emit 36 Agent.devops_engineer
        ((msgsF ++ [⟨"QA_Engineer", emit Agent.qa_engineer msgsF⟩])
         ++ [⟨"DevOps_Engineer",
              emit Agent.devops_engineer
                (msgsF ++ [⟨"QA_Engineer", emit Agent.qa_engineer msgsF⟩])⟩]) 5
        = chatLoop ⟨5, none⟩ emit 35 Agent.ux_designer
            (((msgsF ++ [⟨"QA_Engineer", emit Agent.qa_engineer msgsF⟩])
              ++ [⟨"DevOps_Engineer",
                   emit Agent.devops_engineer
                     (msgsF ++ [⟨"QA_Engineer", emit Agent.qa_engineer msgsF⟩])⟩])
             ++ [⟨"UX_Designer",
                  emit Agent.ux_designer
                    ((msgsF ++ [⟨"QA_Engineer", emit Agent.qa_engineer msgsF⟩])
                     ++ [⟨"DevOps_Engineer",
                          emit Agent.devops_engineer
                            (msgsF
                             ++ [⟨"QA_Engineer", emit Agent.qa_engineer msgsF⟩])⟩])⟩]) 5 :=
      chatLoop_step _ _ _ _ _ _ _ _ (sel_devops ⟨5, none⟩ 5 _ rfl)
    have e7 : chatLoop ⟨5, none⟩ emit 35 Agent.ux_designer
        (((msgsF ++ [⟨"QA_Engineer", emit Agent.qa_engineer msgsF⟩])
          ++ [⟨"DevOps_Engineer",
               emit Agent.devops_engineer
                 (msgsF ++ [⟨"QA_Engineer", emit Agent.qa_engineer msgsF⟩])⟩])
         ++ [⟨"UX_Designer",
              emit Agent.ux_designer
                ((msgsF ++ [⟨"QA_Engineer", emit Agent.qa_engineer msgsF⟩])
                 ++ [⟨"DevOps_Engineer",
                      emit Agent.devops_engineer
                        (msgsF
                         ++ [⟨"QA_Engineer", emit Agent.qa_engineer msgsF⟩])⟩])⟩]) 5
        = ((((msgsF ++ [⟨"QA_Engineer", emit Agent.qa_engineer msgsF⟩])
          ++ [⟨"DevOps_Engineer",
               emit Agent.devops_engineer
                 (msgsF ++ [⟨"QA_Engineer", emit Agent.qa_engineer msgsF⟩])⟩])
         ++ [⟨"UX_Designer",
              emit Agent.ux_designer
                ((msgsF ++ [⟨"QA_Engineer", emit Agent.qa_engineer msgsF⟩])
                 ++ [⟨"DevOps_Engineer",
                      emit Agent.devops_engineer
                        (msgsF
                         ++ [⟨"QA_Engineer", emit Agent.qa_engineer msgsF⟩])⟩])⟩]),
           5, none) :=
      chatLoop_stop _ _ 34 _ _ _ _ (sel_ux ⟨5, none⟩ 5 _ rfl)
    have hchat := e1.trans (e2.trans (e3.trans (e4.trans (e5.trans (e6.trans e7)))))
    refine ⟨((msgsF ++ [⟨"QA_Engineer", emit Agent.qa_engineer msgsF⟩])
              ++ [⟨"DevOps_Engineer",
                   emit Agent.devops_engineer
                     (msgsF ++ [⟨"QA_Engineer", emit Agent.qa_engineer msgsF⟩])⟩])
             ++ [⟨"UX_Designer",
                  emit Agent.ux_designer
                    ((msgsF ++ [⟨"QA_Engineer", emit Agent.qa_engineer msgsF⟩])
                     ++ [⟨"DevOps_Engineer",
                          emit Agent.devops_engineer
                            (msgsF
                             ++ [⟨"QA_Engineer", emit Agent.qa_engineer msgsF⟩])⟩])⟩],
      ?_, ?_, ?_, ?_⟩
    · simp only [initiate_workflow, hreq, hchat]
      rfl
    · simp only [initiate_workflow, hreq, hchat]
      rfl
    · simp only [initiate_workflow, hreq, hchat]
      rfl
    · simp [hnames]

/-- C1 witness: at emit constantly `"FIX_REQUIRED"`, request `"Build"`,
the run-level conjunct applies with all hypotheses discharged. -/
theorem C1_bounded_review_loop_witness :
    ∃ final : List Message,
      (initiate_workflow ⟨5, none⟩ (fun _ _ => "FIX_REQUIRED")
          (fun _ => Except.ok
            { status := "no_tests", total_tests := 0, total_passed := 0,
              total_failed := 0, total_errors := 0 })
          "/ws" ⟨[], []⟩ "Build").1.status = "success" ∧
      (initiate_workflow ⟨5, none⟩ (fun _ _ => "FIX_REQUIRED")
          (fun _ => Except.ok
            { status := "no_tests", total_tests := 0, total_passed := 0,
              total_failed := 0, total_errors := 0 })
          "/ws" ⟨[], []⟩ "Build").1.review_iterations = 5 ∧
      (initiate_workflow ⟨5, none⟩ (fun _ _ => "FIX_REQUIRED")
          (fun _ => Except.ok
            { status := "no_tests", total_tests := 0, total_passed := 0,
              total_failed := 0, total_errors := 0 })
          "/ws" ⟨[], []⟩ "Build").1.messages = some final ∧
      final.map Message.name
        = ["Admin_Proxy", "Product_Manager", "Python_Engineer", "Code_Reviewer",
           "Python_Engineer", "Code_Reviewer", "Python_Engineer", "Code_Reviewer",
           "Python_Engineer", "Code_Reviewer", "Python_Engineer", "Code_Reviewer",
           "Tech_Writer", "QA_Engineer", "DevOps_Engineer", "UX_Designer"] :=
  C1_bounded_review_loop.2 (fun _ _ => "FIX_REQUIRED")
    (fun _ => (by decide : pyIn "FIX_REQUIRED" "FIX_REQUIRED" = true))
    (fun _ => Except.ok
      { status := "no_tests", total_tests := 0, total_passed := 0,
        total_failed := 0, total_errors := 0 })
    "/ws" "Build" ⟨[], []⟩ (by decide)

/-- C2: start and terminal handling of the selector — `Admin_Proxy` with
no `UX_Designer` message anywhere in the transcript starts the pipeline
at `Product_Manager`; `Admin_Proxy` after `UX_Designer` has appeared
anywhere returns Terminal; `UX_Designer` as last speaker returns
Terminal directly. -/
theorem C2_start_terminal (cfg : Config) (count : Nat) (msgs : List Message)
    (hok1 : notify cfg "product_manager" "analyzing" none = Except.ok ())
    (hok2 : notify cfg "complete" "done" none = Except.ok ()) :
    ((msgs.any fun m => m.name == "UX_Designer") = false →
      custom_speaker_selector cfg count Agent.admin_proxy msgs
        = (count, Except.ok (some Agent.product_manager))) ∧
    ((msgs.any fun m => m.name == "UX_Designer") = true →
      custom_speaker_selector cfg count Agent.admin_proxy msgs
        = (count, Except.ok none)) ∧
    (custom_speaker_selector cfg count Agent.ux_designer msgs
      = (count, Except.ok none)) :=
  ⟨fun hux => sel_admin_start cfg count msgs hux hok1,
   fun hux => sel_admin_end cfg count msgs hux,
   sel_ux cfg count msgs hok2⟩

/-- C2 witness: no callback, empty transcript and a transcript containing
a `UX_Designer` message. -/
theorem C2_start_terminal_witness :
    custom_speaker_selector ⟨5, none⟩ 0 Agent.admin_proxy []
        = (0, Except.ok (some Agent.product_manager)) ∧
    custom_speaker_selector ⟨5, none⟩ 0 Agent.admin_proxy
        [⟨"UX_Designer", "ui"⟩] = (0, Except.ok none) ∧
    custom_speaker_selector ⟨5, none⟩ 0 Agent.ux_designer [] =
        (0, Except.ok none) :=
  ⟨(C2_start_terminal ⟨5, none⟩ 0 [] rfl rfl).1 rfl,
   (C2_start_terminal ⟨5, none⟩ 0 [⟨"UX_Designer", "ui"⟩] rfl rfl).2.1 (by decide),
   (C2_start_terminal ⟨5, none⟩ 0 [] rfl rfl).2.2⟩

/-- C3: a reviewer output containing neither `"FIX_REQUIRED"` nor
`"APPROVED"` takes the default-approve branch: advance to `Tech_Writer`
with the counter unchanged; a run whose reviewer output contains
neither token completes with `status = "success"` and
`review_iterations = 0`. -/
theorem C3_default_approve :
    (∀ (cfg : Config) (count : Nat) (msgs : List Message),
      pyIn "FIX_REQUIRED" (lastMessageOf msgs) = false →
      pyIn "APPROVED" (lastMessageOf msgs) = false →
      custom_speaker_selector cfg count Agent.code_reviewer msgs
        = (count, Except.ok (some Agent.tech_writer))) ∧
    (∀ (M : Nat) (emit : Agent → List Message → String),
      (∀ ms, pyIn "FIX_REQUIRED" (emit Agent.code_reviewer ms) = false) →
      (∀ ms, pyIn "APPROVED" (emit Agent.code_reviewer ms) = false) →
      ∀ (run_tests : String → Except PyExc TestAgg) (ws req : String) (fsys : FS),
      (req == "" || pyStrip req == "") = false →
      (initiate_workflow ⟨M, none⟩ emit run_tests ws fsys req).1.status
          = "success" ∧
      (initiate_workflow ⟨M, none⟩ emit run_tests ws fsys req).1.review_iterations
          = 0) := by
  constructor
  · exact fun cfg count msgs hF hA => sel_rev_default cfg count msgs hF hA
  · intro M emit hF hA run_tests ws req fsys hreq
    have h := chat_default M emit hF hA req
    rcases hch : chatLoop ⟨M, none⟩ emit 50 Agent.admin_proxy
        [⟨"Admin_Proxy", req⟩] 0 with ⟨msgs, count, err⟩
    rw [hch] at h
    obtain ⟨h1, -⟩ := h
    simp only [Prod.mk.injEq] at h1
    obtain ⟨hcount, herr⟩ := h1
    subst hcount
    subst herr
    constructor <;> simp [initiate_workflow, hreq, hch]

/-- C3 witness: a reviewer that answers `"looks fine"` (no tokens). -/
theorem C3_default_approve_witness :
    custom_speaker_selector ⟨5, none⟩ 0 Agent.code_reviewer
        [⟨"Code_Reviewer", "looks fine"⟩]
      = (0, Except.ok (some Agent.tech_writer)) ∧
    (initiate_workflow ⟨5, none⟩ (fun _ _ => "looks fine")
        (fun _ => Except.ok
          { status := "no_tests", total_tests := 0, total_passed := 0,
            total_failed := 0, total_errors := 0 })
        "/ws" ⟨[], []⟩ "Build").1.status = "success" ∧
    (initiate_workflow ⟨5, none⟩ (fun _ _ => "looks fine")
        (fun _ => Except.ok
          { status := "no_tests", total_tests := 0, total_passed := 0,
            total_failed := 0, total_errors := 0 })
        "/ws" ⟨[], []⟩ "Build").1.review_iterations = 0 :=
  ⟨C3_default_approve.1 ⟨5, none⟩ 0 [⟨"Code_Reviewer", "looks fine"⟩]
      (by decide) (by decide),
   (C3_default_approve.2 5 (fun _ _ => "looks fine")
      (fun _ => (by decide : pyIn "FIX_REQUIRED" "looks fine" = false))
      (fun _ => (by decide : pyIn "APPROVED" "looks fine" = false))
      (fun _ => Except.ok
        { status := "no_tests", total_tests := 0, total_passed := 0,
          total_failed := 0, total_errors := 0 })
      "/ws" "Build" ⟨[], []⟩ (by decide)).1,
   (C3_default_approve.2 5 (fun _ _ => "looks fine")
      (fun _ => (by decide : pyIn "FIX_REQUIRED" "looks fine" = false))
      (fun _ => (by decide : pyIn "APPROVED" "looks fine" = false))
      (fun _ => Except.ok
        { status := "no_tests", total_tests := 0, total_passed := 0,
          total_failed := 0, total_errors := 0 })
      "/ws" "Build" ⟨[], []⟩ (by decide)).2⟩

/-- C6: when the test capability raises, the exception is caught and
converted into an aggregate with `status = "error"`, all counts zero and
the reason preserved as `"Failed to execute tests: ..."`, while the
workflow still returns `status = "success"`. -/
theorem C6_test_exception (M : Nat) (emit : Agent → List Message → String)
    (exc : PyExc) (ws req : String) (fsys : FS)
    (hreq : (req == "" || pyStrip req == "") = false) :
    (initiate_workflow ⟨M, none⟩ emit (fun _ => Except.error exc)
        ws fsys req).1.status = "success" ∧
    (initiate_workflow ⟨M, none⟩ emit (fun _ => Except.error exc)
        ws fsys req).1.test_results
      = some { status := "error",
               message := some ("Failed to execute tests: " ++ exc.msg),
               total_tests := 0, total_passed := 0, total_failed := 0,
               total_errors := 0, test_results := [] } := by
  have herr := chatLoop_no_error ⟨M, none⟩ rfl emit 50 Agent.admin_proxy
    [⟨"Admin_Proxy", req⟩] 0
  rcases hch : chatLoop ⟨M, none⟩ emit 50 Agent.admin_proxy
      [⟨"Admin_Proxy", req⟩] 0 with ⟨msgs, count, err⟩
  rw [hch] at herr
  simp only at herr
  subst herr
  constructor <;> simp [initiate_workflow, hreq, hch]

/-- C6 witness: a raising test capability on a concrete run. -/
theorem C6_test_exception_witness :
    (initiate_workflow ⟨5, none⟩ (fun _ _ => "APPROVED")
        (fun _ => Except.error ⟨"RuntimeError", "pytest missing"⟩)
        "/ws" ⟨[], []⟩ "Build").1.status = "success" ∧
    (initiate_workflow ⟨5, none⟩ (fun _ _ => "APPROVED")
        (fun _ => Except.error ⟨"RuntimeError", "pytest missing"⟩)
        "/ws" ⟨[], []⟩ "Build").1.test_results
      = some { status := "error",
               message := some "Failed to execute tests: pytest missing",
               total_tests := 0, total_passed := 0, total_failed := 0,
               total_errors := 0, test_results := [] } :=
  C6_test_exception 5 (fun _ _ => "APPROVED")
    ⟨"RuntimeError", "pytest missing"⟩ "/ws" "Build" ⟨[], []⟩ (by decide)

/-- C7: an empty or whitespace-only request returns immediately with an
error result and `review_iterations = 0`, leaving the filesystem
untouched, and the result is independent of the stages, the test
capability and the workspace (none of them is invoked). -/
theorem C7_empty_request (cfg cfg' : Config)
    (emit emit' : Agent → List Message → String)
    (rt rt' : String → Except PyExc TestAgg) (ws ws' : String) (fsys : FS)
    (req : String)
    (hreq : (req == "" || pyStrip req == "") = true) :
    initiate_workflow cfg emit rt ws fsys req
      = ({ status := "error", error := some "User request cannot be empty",
           review_iterations := 0 }, fsys) ∧
    initiate_workflow cfg emit rt ws fsys req
      = initiate_workflow cfg' emit' rt' ws' fsys req := by
  constructor <;> simp [initiate_workflow, hreq]

/-- C7 witness: the whitespace-only request `"   "`. -/
theorem C7_empty_request_witness :
    initiate_workflow ⟨5, none⟩ (fun _ _ => "code")
        (fun _ => Except.error ⟨"E", "e"⟩) "/ws" ⟨[], []⟩ "   "
      = ({ status := "error", error := some "User request cannot be empty",
           review_iterations := 0 }, ⟨[], []⟩) ∧
    initiate_workflow ⟨5, none⟩ (fun _ _ => "code")
        (fun _ => Except.error ⟨"E", "e"⟩) "/ws" ⟨[], []⟩ "   "
      = initiate_workflow ⟨7, none⟩ (fun _ _ => "other")
          (fun _ => Except.ok
            { status := "passed", total_tests := 1, total_passed := 1,
              total_failed := 0, total_errors := 0 })
          "/elsewhere" ⟨[], []⟩ "   " :=
  C7_empty_request ⟨5, none⟩ ⟨7, none⟩ (fun _ _ => "code") (fun _ _ => "other")
    (fun _ => Except.error ⟨"E", "e"⟩)
    (fun _ => Except.ok
      { status := "passed", total_tests := 1, total_passed := 1,
        total_failed := 0, total_errors := 0 })
    "/ws" "/elsewhere" ⟨[], []⟩ "   " (by decide)

/-- A progress callback that always raises, used to exhibit exception
propagation out of the selector. -/
def throwingCb : Callback :=
  fun _ _ _ => Except.error ⟨"RuntimeError", "boom"⟩

/-- C8 counterexample: the claim says an exception raised inside the
progress callback is swallowed by the orchestrator and never propagated;
but with an always-raising callback the selector's result at the very
first transition is that exception — it propagates out of
`custom_speaker_selector` (there is no try/except around the callback
calls in the orchestrator). -/
theorem C8_counterexample :
    (custom_speaker_selector ⟨5, some throwingCb⟩ 0 Agent.admin_proxy
        [⟨"Admin_Proxy", "build"⟩]).2
      = Except.error ⟨"RuntimeError", "boom"⟩ := rfl

/-- C8 amended: the orchestrator does not guard the progress callback —
a raising callback's exception propagates out of the selector; when the
callback returns normally, neither its presence nor its return value
changes the transition: the selector's result equals that of the
no-callback configuration. -/
theorem C8_amended (M count : Nat) (ls : Agent) (msgs : List Message)
    (cb : Callback) :
    ((∀ s a i, cb s a i = Except.ok ()) →
      custom_speaker_selector ⟨M, some cb⟩ count ls msgs
        = custom_speaker_selector ⟨M, none⟩ count ls msgs) ∧
    ((∀ s a i, cb s a i = Except.error ⟨"RuntimeError", "boom"⟩) →
      (custom_speaker_selector ⟨M, some cb⟩ count Agent.admin_proxy []).2
        = Except.error ⟨"RuntimeError", "boom"⟩) := by
  constructor
  · intro hok
    simp [custom_speaker_selector, notify, hok]
  · intro herr
    simp [custom_speaker_selector, Agent.name, notify, herr, thenReturn]

/-- C8 amended witness: the always-ok callback at a concrete state. -/
theorem C8_amended_witness :
    custom_speaker_selector ⟨5, some fun _ _ _ => Except.ok ()⟩ 0
        Agent.product_manager []
      = custom_speaker_selector ⟨5, none⟩ 0 Agent.product_manager [] :=
  (C8_amended 5 0 Agent.product_manager [] (fun _ _ _ => Except.ok ())).1
    (fun _ _ _ => rfl)

/-- C9: the selector is a deterministic pure function of the last
speaker, the transcript and the counter — it consults no clock and no
randomness; in particular two configurations with the same ceiling and
any non-raising callbacks (or none) yield identical results on identical
inputs, and repeating an invocation yields the same output. -/
theorem C9_selector_pure (M : Nat) (cb1 cb2 : Option Callback)
    (count : Nat) (ls : Agent) (msgs : List Message)
    (h1 : ∀ s a i, notify ⟨M, cb1⟩ s a i = Except.ok ())
    (h2 : ∀ s a i, notify ⟨M, cb2⟩ s a i = Except.ok ()) :
    custom_speaker_selector ⟨M, cb1⟩ count ls msgs
      = custom_speaker_selector ⟨M, cb2⟩ count ls msgs ∧
    custom_speaker_selector ⟨M, cb1⟩ count ls msgs
      = custom_speaker_selector ⟨M, cb1⟩ count ls msgs := by
  refine ⟨?_, rfl⟩
  simp [custom_speaker_selector, h1, h2]

/-- C9 witness: no-callback versus always-ok callback on a concrete
state. -/
theorem C9_selector_pure_witness :
    custom_speaker_selector ⟨5, none⟩ 2 Agent.code_reviewer
        [⟨"Code_Reviewer", "APPROVED"⟩]
      = custom_speaker_selector ⟨5, some fun _ _ _ => Except.ok ()⟩ 2
          Agent.code_reviewer [⟨"Code_Reviewer", "APPROVED"⟩] :=
  (C9_selector_pure 5 none (some fun _ _ _ => Except.ok ()) 2
    Agent.code_reviewer [⟨"Code_Reviewer", "APPROVED"⟩]
    (fun _ _ _ => rfl) (fun _ _ _ => rfl)).1

/-- C10: a reviewer message containing both `"FIX_REQUIRED"` and
`"APPROVED"` takes the rework branch (the `if` tests the rework token
first): the counter is incremented and the selector routes back to the
producer, or force-advances to the `Tech_Writer` at the ceiling — it is
not treated as an approval. -/
theorem C10_fix_precedence (cfg : Config) (count : Nat)
    (msgs : List Message)
    (hfix : pyIn "FIX_REQUIRED" (lastMessageOf msgs) = true)
    (happ : pyIn "APPROVED" (lastMessageOf msgs) = true)
    (hok : notify cfg "python_engineer" "fixing" (some (count + 1))
      = Except.ok ()) :
    custom_speaker_selector cfg count Agent.code_reviewer msgs
      = (count + 1,
         Except.ok (some (if cfg.max_review_iterations ≤ count + 1
           then Agent.tech_writer else Agent.python_engineer))) := by
  rcases Nat.lt_or_ge count.succ cfg.max_review_iterations with hlt | hge
  · rw [if_neg (Nat.not_le.mpr hlt)]
    exact sel_rev_fix cfg count msgs hfix hlt hok
  · rw [if_pos hge]
    exact sel_rev_fix_max cfg count msgs hfix hge

/-- C10 witness: a message carrying both tokens, below the ceiling. -/
theorem C10_fix_precedence_witness :
    custom_speaker_selector ⟨5, none⟩ 0 Agent.code_reviewer
        [⟨"Code_Reviewer", "APPROVED but FIX_REQUIRED"⟩]
      = (1, Except.ok (some Agent.python_engineer)) :=
  C10_fix_precedence ⟨5, none⟩ 0 [⟨"Code_Reviewer", "APPROVED but FIX_REQUIRED"⟩]
    (by decide) (by decide) rfl

/-- C4 counterexample: the claim says a malformed block (BEGIN with no
matching END) followed by a well-formed block in the same entry still
yields the second block as a separate artifact; in fact the lazy body
group of the pattern, with DOTALL, matches from the first BEGIN to the
first END marker, producing a single pair named by the malformed block
whose body swallows the second block — no `"b.py"` artifact exists. -/
theorem C4_counterexample :
    findall_file_pattern
        "===BEGIN_FILE:a.py===\nprint(1)\n===BEGIN_FILE:b.py===\nprint(2)\n===END_FILE==="
      = [("a.py", "print(1)\n===BEGIN_FILE:b.py===\nprint(2)")] ∧
    (extract_files "/ws" ⟨["/ws"], []⟩
        [⟨"Python_Engineer",
          "===BEGIN_FILE:a.py===\nprint(1)\n===BEGIN_FILE:b.py===\nprint(2)\n===END_FILE==="⟩]).1.read
        "/ws/b.py" = none := by decide

/-- C4 amended: extraction scans each entry's content independently, so
an entry in which the pattern finds no block (for example one with only
a malformed, unterminated block) never prevents or alters extraction
from other entries; within one entry a well-formed block followed by an
unterminated BEGIN is still extracted, but an unterminated BEGIN before
a well-formed block absorbs the latter into a single artifact named by
the malformed block. -/
theorem C4_amended :
    (∀ (ws n c : String) (fs0 : FS) (rest : List Message),
      findall_file_pattern c = [] →
      extract_files ws fs0 (⟨n, c⟩ :: rest) = extract_files ws fs0 rest) ∧
    findall_file_pattern
        "===BEGIN_FILE:b.py===\nprint(2)\n===END_FILE===\n===BEGIN_FILE:broken.py===\nno end"
      = [("b.py", "print(2)")] ∧
    findall_file_pattern
        "===BEGIN_FILE:a.py===\nprint(1)\n===BEGIN_FILE:b.py===\nprint(2)\n===END_FILE==="
      = [("a.py", "print(1)\n===BEGIN_FILE:b.py===\nprint(2)")] := by
  refine ⟨?_, by decide, by decide⟩
  intro ws n c fs0 rest h
  simp [extract_files, h, saveMatches]

/-- C4 amended witness: an entry with no blocks before an entry with one
block does not change the extraction outcome. -/
theorem C4_amended_witness :
    extract_files "/ws" ⟨["/ws"], []⟩
        [⟨"Code_Reviewer", "no file blocks here"⟩,
         ⟨"Python_Engineer", "===BEGIN_FILE:m.py===\npass\n===END_FILE==="⟩]
      = extract_files "/ws" ⟨["/ws"], []⟩
          [⟨"Python_Engineer", "===BEGIN_FILE:m.py===\npass\n===END_FILE==="⟩] :=
  C4_amended.1 "/ws" "Code_Reviewer" "no file blocks here" ⟨["/ws"], []⟩
    [⟨"Python_Engineer", "===BEGIN_FILE:m.py===\npass\n===END_FILE==="⟩]
    (by decide)

/-- C5 counterexample: the claim says an artifact whose name is a
relative path with subdirectories is persisted with missing parent
directories created as needed; in fact the code only creates the
workspace root (`os.makedirs(workspace_path)`) and opens the joined
path directly, so with a fresh workspace the write of `pkg/mod.py`
raises, is caught and skipped: nothing is persisted and the counter
stays 0. -/
theorem C5_counterexample :
    extract_files "/ws" (makedirs ⟨[], []⟩ "/ws")
        [⟨"Python_Engineer", "===BEGIN_FILE:pkg/mod.py===\nx = 1\n===END_FILE==="⟩]
      = (makedirs ⟨[], []⟩ "/ws", 0) ∧
    (extract_files "/ws" (makedirs ⟨[], []⟩ "/ws")
        [⟨"Python_Engineer", "===BEGIN_FILE:pkg/mod.py===\nx = 1\n===END_FILE==="⟩]).1.read
        "/ws/pkg/mod.py" = none := by decide

/-- C5 amended: each successfully extracted artifact is persisted under
the workspace root at its name taken as a relative path, but parent
directories are never created: a flat name is written under the root; a
subdirectory path is honored only when its parent directory already
exists; when the parent is missing, that artifact's write fails, the
failure is caught and logged, and extraction of the remaining artifacts
continues. -/
theorem C5_amended :
    (extract_files "/ws" (makedirs ⟨[], []⟩ "/ws")
        [⟨"Python_Engineer", "===BEGIN_FILE:mod.py===\nx = 1\n===END_FILE==="⟩]).1.read
        "/ws/mod.py" = some "x = 1" ∧
    (extract_files "/ws" (makedirs ⟨[], []⟩ "/ws")
        [⟨"Python_Engineer", "===BEGIN_FILE:mod.py===\nx = 1\n===END_FILE==="⟩]).2
      = 1 ∧
    (extract_files "/ws" ⟨["/ws/pkg", "/ws"], []⟩
        [⟨"Python_Engineer", "===BEGIN_FILE:pkg/mod.py===\nx = 1\n===END_FILE==="⟩]).1.read
        "/ws/pkg/mod.py" = some "x = 1" ∧
    (extract_files "/ws" (makedirs ⟨[], []⟩ "/ws")
        [⟨"Python_Engineer",
          "===BEGIN_FILE:pkg/a.py===\nA = 1\n===END_FILE===\n===BEGIN_FILE:b.py===\nB = 2\n===END_FILE==="⟩]).2
      = 1 ∧
    (extract_files "/ws" (makedirs ⟨[], []⟩ "/ws")
        [⟨"Python_Engineer",
          "===BEGIN_FILE:pkg/a.py===\nA = 1\n===END_FILE===\n===BEGIN_FILE:b.py===\nB = 2\n===END_FILE==="⟩]).1.read
        "/ws/b.py" = some "B = 2" := by decide

end DevTeam
